import Mathlib

/-!
Verification of the command-routing layer of the Move CLI
(`language/tools/move-cli/src/lib.rs`).

The file embeds the data model (`Move` global options, the `Command` enum,
the empty `Base` enum, the process-wide runtime data) and the dispatcher
`run_cli`.  The collaborator entry points (`Build.execute`,
`New.execute_with_defaults`, `Test.execute`, `SandboxCommand.handle_command`,
`ExperimentalCommand.handle_command`) are external crates, explicitly out of
scope for this layer; they are modelled as an arbitrary assignment of handler
functions (`Handlers`), over which all theorems quantify.  The payload carried
by each subcommand, the build configuration, the cost table, the error mapping
and the native-function implementations are opaque to this layer and are
modelled as abstract tokens.
-/

namespace MoveCli

/-- Opaque 16-byte account address (`move_core_types::account_address::AccountAddress`). -/
structure AccountAddress where
  val : Nat
deriving DecidableEq, Repr

/-- Opaque identifier (`move_core_types::identifier::Identifier`). -/
structure Identifier where
  name : String
deriving DecidableEq, Repr

/-- Opaque native function implementation (`move_vm_runtime::native_functions::NativeFunction`). -/
structure NativeFunction where
  id : Nat
deriving DecidableEq, Repr

/-- `type NativeFunctionRecord = (AccountAddress, Identifier, Identifier, NativeFunction)`. -/
abbrev NativeFunctionRecord := AccountAddress × Identifier × Identifier × NativeFunction

/-- Opaque gas schedule (`move_core_types::gas_schedule::CostTable`). -/
structure CostTable where
  id : Nat
deriving DecidableEq, Repr

/-- Opaque error-description map (`move_core_types::errmap::ErrorMapping`). -/
structure ErrorMapping where
  id : Nat
deriving DecidableEq, Repr

/-- Opaque package build options (`move_package::BuildConfig`). -/
structure BuildConfig where
  id : Nat
deriving DecidableEq, Repr

/-- Filesystem path (`std::path::PathBuf`), modelled as its string form. -/
abbrev PathBuf := String

/-- Global options of the CLI (struct `Move` in lib.rs): the optional package
path, the verbosity flag and the flattened build configuration. -/
structure Move where
  package_path : Option PathBuf
  verbose : Bool
  build_config : BuildConfig
deriving DecidableEq, Repr

/-- Opaque option payload of the `build` subcommand (`base::build::Build`). -/
structure Build where
  id : Nat
deriving DecidableEq, Repr

/-- Opaque option payload of the `coverage` subcommand (`base::coverage::Coverage`). -/
structure Coverage where
  id : Nat
deriving DecidableEq, Repr

/-- Opaque option payload of the `disassemble` subcommand (`base::disassemble::Disassemble`). -/
structure Disassemble where
  id : Nat
deriving DecidableEq, Repr

/-- Opaque option payload of the `errmap` subcommand (`base::errmap::Errmap`). -/
structure Errmap where
  id : Nat
deriving DecidableEq, Repr

/-- Opaque option payload of the `info` subcommand (`base::info::Info`). -/
structure Info where
  id : Nat
deriving DecidableEq, Repr

/-- Opaque option payload of the `new` subcommand (`base::new::New`). -/
structure New where
  id : Nat
deriving DecidableEq, Repr

/-- Opaque option payload of the `prove` subcommand (`base::prove::Prove`). -/
structure Prove where
  id : Nat
deriving DecidableEq, Repr

/-- Opaque option payload of the `test` subcommand (`base::test::Test`). -/
structure Test where
  id : Nat
deriving DecidableEq, Repr

/-- Opaque nested sandbox sub-command (`sandbox::cli::SandboxCommand`). -/
structure SandboxCommand where
  id : Nat
deriving DecidableEq, Repr

/-- Opaque nested experimental sub-command (`experimental::cli::ExperimentalCommand`). -/
structure ExperimentalCommand where
  id : Nat
deriving DecidableEq, Repr

/-- The source declares `pub enum Base {}`: an enum with no variants. -/
inductive Base : Type

/-- `pub const DEFAULT_STORAGE_DIR: &str = "storage";` -/
def DEFAULT_STORAGE_DIR : String := "storage"

/-- `pub const DEFAULT_BUILD_DIR: &str = ".";` -/
def DEFAULT_BUILD_DIR : String := "."

/-- The `Command` enum of lib.rs: eight leaf variants and the two nested
variants `Sandbox` and `Experimental`, which carry a `storage_dir` path and an
opaque nested sub-command. -/
inductive Command : Type where
  | build (c : Build)
  | coverage (c : Coverage)
  | disassemble (c : Disassemble)
  | errmap (c : Errmap)
  | info (c : Info)
  | new (c : New)
  | prove (c : Prove)
  | test (c : Test)
  | sandbox (storage_dir : PathBuf) (cmd : SandboxCommand)
  | experimental (storage_dir : PathBuf) (cmd : ExperimentalCommand)
deriving DecidableEq, Repr

/-- Opaque error payload (`anyhow::Error`) returned by a collaborator. -/
structure Error where
  msg : String
deriving DecidableEq, Repr

/-- The collaborator entry points called by `run_cli`.  Each is external code
(other crates of the repository); the dispatcher treats them as black boxes,
so they are modelled as an arbitrary assignment of functions, polymorphic in
the result type `ρ` (in the source, `ρ` is `anyhow::Result<()>`). -/
structure Handlers (ρ : Type) where
  buildExecute : Build → Option PathBuf → BuildConfig → ρ
  coverageExecute : Coverage → Option PathBuf → BuildConfig → ρ
  disassembleExecute : Disassemble → Option PathBuf → BuildConfig → ρ
  errmapExecute : Errmap → Option PathBuf → BuildConfig → ρ
  infoExecute : Info → Option PathBuf → BuildConfig → ρ
  newExecuteWithDefaults : New → Option PathBuf → ρ
  proveExecute : Prove → Option PathBuf → BuildConfig → ρ
  testExecute : Test → Option PathBuf → BuildConfig → List NativeFunctionRecord → ρ
  sandboxHandleCommand : SandboxCommand → List NativeFunctionRecord → CostTable →
    ErrorMapping → Move → PathBuf → ρ
  experimentalHandleCommand : ExperimentalCommand → Move → PathBuf → ρ

/-- The dispatcher `run_cli` of lib.rs, translated arm by arm from the `match`
on `cmd`.  It is parameterized by the handler assignment `h`; each arm applies
exactly the collaborator call written in the source, with exactly the
arguments the source passes. -/
def run_cli {ρ : Type} (h : Handlers ρ) (natives : List NativeFunctionRecord)
    (cost_table : CostTable) (error_descriptions : ErrorMapping)
    (move_args : Move) (cmd : Command) : ρ :=
  match cmd with
  | .build c => h.buildExecute c move_args.package_path move_args.build_config
  | .coverage c => h.coverageExecute c move_args.package_path move_args.build_config
  | .disassemble c => h.disassembleExecute c move_args.package_path move_args.build_config
  | .errmap c => h.errmapExecute c move_args.package_path move_args.build_config
  | .info c => h.infoExecute c move_args.package_path move_args.build_config
  | .new c => h.newExecuteWithDefaults c move_args.package_path
  | .prove c => h.proveExecute c move_args.package_path move_args.build_config
  | .test c => h.testExecute c move_args.package_path move_args.build_config natives
  | .sandbox storage_dir cmd =>
      h.sandboxHandleCommand cmd natives cost_table error_descriptions move_args storage_dir
  | .experimental storage_dir cmd => h.experimentalHandleCommand cmd move_args storage_dir

/-- A record of one collaborator call: which entry point was invoked and with
which arguments.  Each constructor mirrors one call site of `run_cli`. -/
inductive Invocation : Type where
  | build (c : Build) (package_path : Option PathBuf) (build_config : BuildConfig)
  | coverage (c : Coverage) (package_path : Option PathBuf) (build_config : BuildConfig)
  | disassemble (c : Disassemble) (package_path : Option PathBuf) (build_config : BuildConfig)
  | errmap (c : Errmap) (package_path : Option PathBuf) (build_config : BuildConfig)
  | info (c : Info) (package_path : Option PathBuf) (build_config : BuildConfig)
  | new (c : New) (package_path : Option PathBuf)
  | prove (c : Prove) (package_path : Option PathBuf) (build_config : BuildConfig)
  | test (c : Test) (package_path : Option PathBuf) (build_config : BuildConfig)
      (natives : List NativeFunctionRecord)
  | sandbox (cmd : SandboxCommand) (natives : List NativeFunctionRecord)
      (cost_table : CostTable) (error_descriptions : ErrorMapping)
      (move_args : Move) (storage_dir : PathBuf)
  | experimental (cmd : ExperimentalCommand) (move_args : Move) (storage_dir : PathBuf)
deriving DecidableEq, Repr

/-- The handler assignment that records the call it receives. -/
def recordingHandlers : Handlers Invocation where
  buildExecute := .build
  coverageExecute := .coverage
  disassembleExecute := .disassemble
  errmapExecute := .errmap
  infoExecute := .info
  newExecuteWithDefaults := .new
  proveExecute := .prove
  testExecute := .test
  sandboxHandleCommand := .sandbox
  experimentalHandleCommand := .experimental

/-- The collaborator call performed by one run of the dispatcher. -/
def invocationOf (natives : List NativeFunctionRecord) (cost_table : CostTable)
    (error_descriptions : ErrorMapping) (move_args : Move) (cmd : Command) : Invocation :=
  run_cli recordingHandlers natives cost_table error_descriptions move_args cmd

/-- Replay a recorded collaborator call against a handler assignment. -/
def applyHandlers {ρ : Type} (h : Handlers ρ) : Invocation → ρ
  | .build c p b => h.buildExecute c p b
  | .coverage c p b => h.coverageExecute c p b
  | .disassemble c p b => h.disassembleExecute c p b
  | .errmap c p b => h.errmapExecute c p b
  | .info c p b => h.infoExecute c p b
  | .new c p => h.newExecuteWithDefaults c p
  | .prove c p b => h.proveExecute c p b
  | .test c p b n => h.testExecute c p b n
  | .sandbox cmd n ct ed m sd => h.sandboxHandleCommand cmd n ct ed m sd
  | .experimental cmd m sd => h.experimentalHandleCommand cmd m sd

/-- The cost-table argument carried by a recorded collaborator call, when the
called entry point takes one. -/
def Invocation.costTableArg : Invocation → Option CostTable
  | .sandbox _ _ ct _ _ _ => some ct
  | _ => none

/-- The error-mapping argument carried by a recorded collaborator call, when
the called entry point takes one. -/
def Invocation.errorMappingArg : Invocation → Option ErrorMapping
  | .sandbox _ _ _ ed _ _ => some ed
  | _ => none

/-- The native-function-table argument carried by a recorded collaborator
call, when the called entry point takes one. -/
def Invocation.nativesArg : Invocation → Option (List NativeFunctionRecord)
  | .test _ _ _ n => some n
  | .sandbox _ n _ _ _ _ => some n
  | _ => none

/-- Whether a command is one of the eight leaf variants (not Sandbox and not
Experimental). -/
def Command.isLeaf : Command → Bool
  | .sandbox _ _ => false
  | .experimental _ _ => false
  | _ => true

/-- Whether a command is the Test variant. -/
def Command.isTest : Command → Bool
  | .test _ => true
  | _ => false

/-- Whether a command is the Sandbox variant. -/
def Command.isSandbox : Command → Bool
  | .sandbox _ _ => true
  | _ => false

/-- Whether a command is the Test or the Sandbox variant. -/
def Command.isTestOrSandbox : Command → Bool
  | .test _ => true
  | .sandbox _ _ => true
  | _ => false

/-- Constructor index of a command, used to count the distinct variants. -/
def Command.tag : Command → Nat
  | .build _ => 0
  | .coverage _ => 1
  | .disassemble _ => 2
  | .errmap _ => 3
  | .info _ => 4
  | .new _ => 5
  | .prove _ => 6
  | .test _ => 7
  | .sandbox _ _ => 8
  | .experimental _ _ => 9

/-- One concrete command per constructor of `Command`. -/
def commandSample : List Command :=
  [.build ⟨0⟩, .coverage ⟨0⟩, .disassemble ⟨0⟩, .errmap ⟨0⟩, .info ⟨0⟩,
   .new ⟨0⟩, .prove ⟨0⟩, .test ⟨0⟩, .sandbox "storage" ⟨0⟩, .experimental "storage" ⟨0⟩]

/-- Modelled from the spec: the argument parser for the `--storage-dir` option
of the `sandbox` and `experimental` subcommands is generated by the `clap`
crate from the attribute `#[clap(long, default_value = DEFAULT_STORAGE_DIR)]`
and is not part of the shown source.  Per the spec (§6), the option takes the
value following the literal flag `--storage-dir` on the command line, and is
absent when the flag does not occur. -/
def parseStorageDir : List String → Option String
  | [] => none
  | a :: rest => if a = "--storage-dir" then rest.head? else parseStorageDir rest

/-- Modelled from the spec: the resolved `storage_dir` field of the parsed
command is the parsed option value when the flag was given, and the default
`DEFAULT_STORAGE_DIR` otherwise (clap `default_value` semantics). -/
def resolvedStorageDir (args : List String) : String :=
  (parseStorageDir args).getD DEFAULT_STORAGE_DIR

theorem parseStorageDir_eq_none (args : List String) (h : "--storage-dir" ∉ args) :
    parseStorageDir args = none := by
  induction args with
  | nil => rfl
  | cons a rest ih =>
      simp only [List.mem_cons, not_or] at h
      simp only [parseStorageDir]
      rw [if_neg (fun hc => h.1 hc.symm)]
      exact ih h.2

/-- C1: for every Command value, `run_cli` invokes exactly one collaborator
entry point and returns that collaborator's result unmodified.  The result of
`run_cli` under an arbitrary handler assignment `h` equals `h` replayed on the
single recorded collaborator call, for every result type `ρ` — in particular
for `ρ = Result<(), Error>`, so any error the invoked handler returns is
propagated as-is and the dispatcher introduces no new error kinds. -/
theorem run_cli_transparent_single_dispatch {ρ : Type} (h : Handlers ρ)
    (natives : List NativeFunctionRecord) (cost_table : CostTable)
    (error_descriptions : ErrorMapping) (move_args : Move) (cmd : Command) :
    run_cli h natives cost_table error_descriptions move_args cmd =
      applyHandlers h (invocationOf natives cost_table error_descriptions move_args cmd) := by
  cases cmd <;> rfl

/-- C2 counterexample: dispatching a concrete Test command produces a
collaborator call that carries neither the cost table nor the error mapping,
refuting the claim that the Test handler is one of the receivers of this
runtime data. -/
theorem test_dispatch_gets_no_cost_table :
    (invocationOf [] ⟨0⟩ ⟨0⟩ ⟨none, false, ⟨0⟩⟩ (Command.test ⟨0⟩)).costTableArg = none ∧
    (invocationOf [] ⟨0⟩ ⟨0⟩ ⟨none, false, ⟨0⟩⟩ (Command.test ⟨0⟩)).errorMappingArg = none := by
  decide

/-- C2 amended: the CostTable and ErrorMapping are forwarded to exactly one
handler, the Sandbox sub-dispatcher: the recorded collaborator call carries
the given cost table (resp. error mapping) precisely when the dispatched
command is the Sandbox variant, and no other variant's handler receives
them. -/
theorem runtime_data_only_to_sandbox (natives : List NativeFunctionRecord)
    (cost_table : CostTable) (error_descriptions : ErrorMapping)
    (move_args : Move) (cmd : Command) :
    (invocationOf natives cost_table error_descriptions move_args cmd).costTableArg =
      (if cmd.isSandbox then some cost_table else none) ∧
    (invocationOf natives cost_table error_descriptions move_args cmd).errorMappingArg =
      (if cmd.isSandbox then some error_descriptions else none) := by
  cases cmd <;> exact ⟨rfl, rfl⟩

/-- C3: among the eight leaf Command variants, Test is the only dispatch path
on which the native-function table is passed to the invoked collaborator, and
Test's handler is called with (package_path, build_config, natives). -/
theorem natives_only_to_test_among_leaves (natives : List NativeFunctionRecord)
    (cost_table : CostTable) (error_descriptions : ErrorMapping)
    (move_args : Move) (cmd : Command) (hleaf : cmd.isLeaf = true) :
    (invocationOf natives cost_table error_descriptions move_args cmd).nativesArg =
      (if cmd.isTest then some natives else none) ∧
    (∀ t : Test, cmd = Command.test t →
      invocationOf natives cost_table error_descriptions move_args cmd =
        Invocation.test t move_args.package_path move_args.build_config natives) := by
  cases cmd <;> simp_all [invocationOf, run_cli, recordingHandlers, Command.isTest,
    Invocation.nativesArg, Command.isLeaf]

theorem natives_only_to_test_among_leaves_witness :
    (Command.test ⟨0⟩).isLeaf = true ∧
    ((invocationOf [] ⟨0⟩ ⟨0⟩ ⟨none, false, ⟨0⟩⟩ (Command.test ⟨0⟩)).nativesArg =
        (if (Command.test ⟨0⟩).isTest then some [] else none) ∧
      (∀ t : Test, Command.test ⟨0⟩ = Command.test t →
        invocationOf [] ⟨0⟩ ⟨0⟩ ⟨none, false, ⟨0⟩⟩ (Command.test ⟨0⟩) =
          Invocation.test t none ⟨0⟩ [])) :=
  ⟨rfl, natives_only_to_test_among_leaves [] ⟨0⟩ ⟨0⟩ ⟨none, false, ⟨0⟩⟩
    (Command.test ⟨0⟩) rfl⟩

/-- C4: dispatching the New command calls the New handler with only
package_path; the build_config field of the global options is never passed to
it, so two global-option records differing only in build_config produce the
identical collaborator call. -/
theorem new_dispatch_ignores_build_config (natives : List NativeFunctionRecord)
    (cost_table : CostTable) (error_descriptions : ErrorMapping)
    (move_args : Move) (c : New) (bc bc' : BuildConfig) :
    invocationOf natives cost_table error_descriptions move_args (Command.new c) =
      Invocation.new c move_args.package_path ∧
    invocationOf natives cost_table error_descriptions
        { move_args with build_config := bc } (Command.new c) =
      invocationOf natives cost_table error_descriptions
        { move_args with build_config := bc' } (Command.new c) :=
  ⟨rfl, rfl⟩

/-- C5: for each of the six leaf variants Build, Coverage, Disassemble,
Errmap, Info and Prove, the dispatcher calls that variant's execute entry
point with exactly (package_path, build_config) taken from the given global
options. -/
theorem six_leaves_get_path_and_build_config (natives : List NativeFunctionRecord)
    (cost_table : CostTable) (error_descriptions : ErrorMapping) (move_args : Move)
    (b : Build) (cov : Coverage) (d : Disassemble) (e : Errmap) (i : Info) (p : Prove) :
    invocationOf natives cost_table error_descriptions move_args (Command.build b) =
      Invocation.build b move_args.package_path move_args.build_config ∧
    invocationOf natives cost_table error_descriptions move_args (Command.coverage cov) =
      Invocation.coverage cov move_args.package_path move_args.build_config ∧
    invocationOf natives cost_table error_descriptions move_args (Command.disassemble d) =
      Invocation.disassemble d move_args.package_path move_args.build_config ∧
    invocationOf natives cost_table error_descriptions move_args (Command.errmap e) =
      Invocation.errmap e move_args.package_path move_args.build_config ∧
    invocationOf natives cost_table error_descriptions move_args (Command.info i) =
      Invocation.info i move_args.package_path move_args.build_config ∧
    invocationOf natives cost_table error_descriptions move_args (Command.prove p) =
      Invocation.prove p move_args.package_path move_args.build_config :=
  ⟨rfl, rfl, rfl, rfl, rfl, rfl⟩

/-- C6: when no `--storage-dir` option occurs on the command line of the
sandbox or experimental subcommand, the resolved storage_dir field equals the
literal string "storage", which is the source constant DEFAULT_STORAGE_DIR. -/
theorem storage_dir_defaults_to_storage (args : List String)
    (h : "--storage-dir" ∉ args) :
    resolvedStorageDir args = "storage" ∧ DEFAULT_STORAGE_DIR = "storage" := by
  refine ⟨?_, rfl⟩
  simp [resolvedStorageDir, parseStorageDir_eq_none args h, DEFAULT_STORAGE_DIR]

theorem storage_dir_defaults_to_storage_witness :
    "--storage-dir" ∉ (["sandbox", "publish"] : List String) ∧
    (resolvedStorageDir ["sandbox", "publish"] = "storage" ∧
      DEFAULT_STORAGE_DIR = "storage") :=
  ⟨by decide, storage_dir_defaults_to_storage ["sandbox", "publish"] (by decide)⟩

/-- C7: dispatching the Experimental variant extracts storage_dir and the
nested sub-command at the outer level and invokes the experimental
sub-dispatcher with exactly (&move_args, &storage_dir); the collaborator call
carries neither the native-function table, nor the cost table, nor the
error mapping. -/
theorem experimental_dispatch_args (natives : List NativeFunctionRecord)
    (cost_table : CostTable) (error_descriptions : ErrorMapping) (move_args : Move)
    (storage_dir : PathBuf) (sub : ExperimentalCommand) :
    invocationOf natives cost_table error_descriptions move_args
        (Command.experimental storage_dir sub) =
      Invocation.experimental sub move_args storage_dir ∧
    (invocationOf natives cost_table error_descriptions move_args
        (Command.experimental storage_dir sub)).nativesArg = none ∧
    (invocationOf natives cost_table error_descriptions move_args
        (Command.experimental storage_dir sub)).costTableArg = none ∧
    (invocationOf natives cost_table error_descriptions move_args
        (Command.experimental storage_dir sub)).errorMappingArg = none :=
  ⟨rfl, rfl, rfl, rfl⟩

/-- C8: dispatch is deterministic and stateless.  The dispatcher is a pure
function of its five arguments: two invocations whose argument tuples are
equal produce the identical collaborator call and, under any handler
assignment, the identical result; no state is threaded between calls. -/
theorem dispatch_deterministic {ρ : Type} (h : Handlers ρ)
    (n₁ n₂ : List NativeFunctionRecord) (ct₁ ct₂ : CostTable)
    (ed₁ ed₂ : ErrorMapping) (m₁ m₂ : Move) (c₁ c₂ : Command)
    (heq : (n₁, ct₁, ed₁, m₁, c₁) = (n₂, ct₂, ed₂, m₂, c₂)) :
    invocationOf n₁ ct₁ ed₁ m₁ c₁ = invocationOf n₂ ct₂ ed₂ m₂ c₂ ∧
    run_cli h n₁ ct₁ ed₁ m₁ c₁ = run_cli h n₂ ct₂ ed₂ m₂ c₂ := by
  simp only [Prod.mk.injEq] at heq
  obtain ⟨h1, h2, h3, h4, h5⟩ := heq
  subst h1; subst h2; subst h3; subst h4; subst h5
  exact ⟨rfl, rfl⟩

theorem dispatch_deterministic_witness :
    ((([] : List NativeFunctionRecord), (⟨0⟩ : CostTable), (⟨0⟩ : ErrorMapping),
        (⟨none, false, ⟨0⟩⟩ : Move), Command.build ⟨0⟩) =
      (([] : List NativeFunctionRecord), (⟨0⟩ : CostTable), (⟨0⟩ : ErrorMapping),
        (⟨none, false, ⟨0⟩⟩ : Move), Command.build ⟨0⟩)) ∧
    (invocationOf [] ⟨0⟩ ⟨0⟩ ⟨none, false, ⟨0⟩⟩ (Command.build ⟨0⟩) =
        invocationOf [] ⟨0⟩ ⟨0⟩ ⟨none, false, ⟨0⟩⟩ (Command.build ⟨0⟩) ∧
      run_cli recordingHandlers [] ⟨0⟩ ⟨0⟩ ⟨none, false, ⟨0⟩⟩ (Command.build ⟨0⟩) =
        run_cli recordingHandlers [] ⟨0⟩ ⟨0⟩ ⟨none, false, ⟨0⟩⟩ (Command.build ⟨0⟩)) :=
  ⟨rfl, dispatch_deterministic recordingHandlers [] [] ⟨0⟩ ⟨0⟩ ⟨0⟩ ⟨0⟩
    ⟨none, false, ⟨0⟩⟩ ⟨none, false, ⟨0⟩⟩ (Command.build ⟨0⟩) (Command.build ⟨0⟩) rfl⟩

/-- C9: for every Command variant other than Test and Sandbox, the result of
`run_cli` does not depend on the natives, cost_table or error_descriptions
arguments: two runs that differ only in those three arguments invoke the same
collaborator with the same arguments and return the same result. -/
theorem non_test_sandbox_independent_of_runtime_data {ρ : Type} (h : Handlers ρ)
    (n₁ n₂ : List NativeFunctionRecord) (ct₁ ct₂ : CostTable)
    (ed₁ ed₂ : ErrorMapping) (m : Move) (c : Command)
    (hc : c.isTestOrSandbox = false) :
    invocationOf n₁ ct₁ ed₁ m c = invocationOf n₂ ct₂ ed₂ m c ∧
    run_cli h n₁ ct₁ ed₁ m c = run_cli h n₂ ct₂ ed₂ m c := by
  cases c <;> simp_all [Command.isTestOrSandbox] <;> exact ⟨rfl, rfl⟩

theorem non_test_sandbox_independent_of_runtime_data_witness :
    (Command.errmap ⟨0⟩).isTestOrSandbox = false ∧
    (invocationOf [(⟨0⟩, ⟨"m"⟩, ⟨"f"⟩, ⟨0⟩)] ⟨0⟩ ⟨0⟩ ⟨none, false, ⟨0⟩⟩
          (Command.errmap ⟨0⟩) =
        invocationOf [] ⟨1⟩ ⟨1⟩ ⟨none, false, ⟨0⟩⟩ (Command.errmap ⟨0⟩) ∧
      run_cli recordingHandlers [(⟨0⟩, ⟨"m"⟩, ⟨"f"⟩, ⟨0⟩)] ⟨0⟩ ⟨0⟩
          ⟨none, false, ⟨0⟩⟩ (Command.errmap ⟨0⟩) =
        run_cli recordingHandlers [] ⟨1⟩ ⟨1⟩ ⟨none, false, ⟨0⟩⟩ (Command.errmap ⟨0⟩)) :=
  ⟨rfl, non_test_sandbox_independent_of_runtime_data recordingHandlers
    [(⟨0⟩, ⟨"m"⟩, ⟨"f"⟩, ⟨0⟩)] [] ⟨0⟩ ⟨1⟩ ⟨0⟩ ⟨1⟩ ⟨none, false, ⟨0⟩⟩
    (Command.errmap ⟨0⟩) rfl⟩

/-- C10 counterexample: the Command enum has ten variants, not nine — the
sample list exhibits ten commands with pairwise distinct constructors, so
"every value routed by run_cli is one of the nine Command variants" is false
as counted. -/
theorem command_has_ten_variants :
    (commandSample.map Command.tag) = [0, 1, 2, 3, 4, 5, 6, 7, 8, 9] ∧
    commandSample.length = 10 ∧ (commandSample.map Command.tag).Nodup := by
  decide

/-- C10 amended: the public Base enum has no variants, so no value of type
Base can ever be constructed, and the dispatcher's input type does not mention
it; every value routed by run_cli is one of the ten Command variants. -/
theorem base_empty_and_command_closed :
    (∀ b : Base, False) ∧
    (∀ c : Command,
      (∃ x, c = Command.build x) ∨ (∃ x, c = Command.coverage x) ∨
      (∃ x, c = Command.disassemble x) ∨ (∃ x, c = Command.errmap x) ∨
      (∃ x, c = Command.info x) ∨ (∃ x, c = Command.new x) ∨
      (∃ x, c = Command.prove x) ∨ (∃ x, c = Command.test x) ∨
      (∃ sd sc, c = Command.sandbox sd sc) ∨
      (∃ sd sc, c = Command.experimental sd sc)) := by
  constructor
  · exact fun b => nomatch b
  · intro c
    cases c with
    | build x => exact Or.inl ⟨x, rfl⟩
    | coverage x => exact Or.inr (Or.inl ⟨x, rfl⟩)
    | disassemble x => exact Or.inr (Or.inr (Or.inl ⟨x, rfl⟩))
    | errmap x => exact Or.inr (Or.inr (Or.inr (Or.inl ⟨x, rfl⟩)))
    | info x => exact Or.inr (Or.inr (Or.inr (Or.inr (Or.inl ⟨x, rfl⟩))))
    | new x => exact Or.inr (Or.inr (Or.inr (Or.inr (Or.inr (Or.inl ⟨x, rfl⟩)))))
    | prove x =>
        exact Or.inr (Or.inr (Or.inr (Or.inr (Or.inr (Or.inr (Or.inl ⟨x, rfl⟩))))))
    | test x =>
        exact Or.inr (Or.inr (Or.inr (Or.inr (Or.inr (Or.inr (Or.inr
          (Or.inl ⟨x, rfl⟩)))))))
    | sandbox sd sc =>
        exact Or.inr (Or.inr (Or.inr (Or.inr (Or.inr (Or.inr (Or.inr (Or.inr
          (Or.inl ⟨sd, sc, rfl⟩))))))))
    | experimental sd sc =>
        exact Or.inr (Or.inr (Or.inr (Or.inr (Or.inr (Or.inr (Or.inr (Or.inr
          (Or.inr ⟨sd, sc, rfl⟩))))))))

end MoveCli
